import Mathlib

/-
Verification development for the function-tracing layer of the repository
(src/telemetry/decorators.py and src/telemetry/auto_instrumentation.py),
shallowly embedded in Lean 4.

Python values, exceptions and functions are modelled explicitly; the span
emitted by a wrapped call is modelled as a list of span events (open span,
set attribute, record exception, set status, close span) from which the
final span record is derived by folding.
-/

/-- A Python exception as observed by the wrapper: its type name and its
message (what `str(e)` returns). -/
structure PyExc where
  excType : String
  msg : String
deriving DecidableEq, Repr

/-- A Python value, as far as the tracing layer can observe it.  `badStr`
models a value whose `__str__` raises (stringification failure); `coro`
models an un-awaited coroutine object produced by calling an async
function, identified by an id. -/
inductive PyVal where
  | int (n : Int)
  | str (s : String)
  | pyNone
  | badStr (excType msg : String)
  | coro (cid : Nat)
deriving DecidableEq, Repr

/-- Python `str(v)`: total on ordinary values, raises for `badStr`. -/
def pyStr : PyVal → Except PyExc String
  | .int n => .ok (toString n)
  | .str s => .ok s
  | .pyNone => .ok "None"
  | .badStr t m => .error ⟨t, m⟩
  | .coro cid => .ok ("<coroutine object " ++ toString cid ++ ">")

/-- OpenTelemetry span status (`StatusCode.OK` / `StatusCode.ERROR` with a
description). -/
inductive SpanStatus where
  | unset
  | ok
  | error (msg : String)
deriving DecidableEq, Repr

/-- The span operations the wrapper performs, in order, during one call. -/
inductive SpanEvent where
  | openSpan (name : String)
  | setAttr (key value : String)
  | recordExc (e : PyExc)
  | setStatus (st : SpanStatus)
  | closeSpan
deriving DecidableEq, Repr

/-- The span record derived from an event trace.  `opens` / `closes` count
how many times the span was opened and closed. -/
structure Span where
  name : String
  attrs : List (String × String)
  status : SpanStatus
  exceptions : List PyExc
  opens : Nat
  closes : Nat
deriving DecidableEq, Repr

def Span.init : Span := ⟨"", [], .unset, [], 0, 0⟩

def applyEvent (sp : Span) : SpanEvent → Span
  | .openSpan n => { sp with name := n, opens := sp.opens + 1 }
  | .setAttr k v => { sp with attrs := sp.attrs ++ [(k, v)] }
  | .recordExc e => { sp with exceptions := sp.exceptions ++ [e] }
  | .setStatus st => { sp with status := st }
  | .closeSpan => { sp with closes := sp.closes + 1 }

def runEvents (evs : List SpanEvent) : Span := evs.foldl applyEvent Span.init

/-- A Python function as the wrapper sees it: `__module__`, `__name__`, its
signature (parameter names with optional default values, in declaration
order), and its body, which receives the bound arguments and either
returns a value or raises. -/
structure PyFunc where
  modName : String
  name : String
  params : List (String × Option PyVal)
  body : List (String × PyVal) → Except PyExc PyVal

/-- Look a name up in a bound-argument mapping (`bound.arguments`). -/
def lookupAssoc (xs : List (String × PyVal)) (n : String) : Option PyVal :=
  (xs.find? (fun p => p.1 == n)).map (fun p => p.2)

/-- Match positional arguments against the leading parameters; returns the
positional bindings and the remaining parameters, or `none` when there are
too many positional arguments. -/
def bindPositional : List (String × Option PyVal) → List PyVal →
    Option (List (String × PyVal) × List (String × Option PyVal))
  | ps, [] => some ([], ps)
  | [], _ :: _ => none
  | (p, _) :: ps, a :: as =>
    match bindPositional ps as with
    | none => none
    | some (bound, rest) => some ((p, a) :: bound, rest)

/-- Bind the remaining (non-positional) parameters from keyword arguments,
falling back to declared defaults (`apply_defaults`); a parameter with
neither raises `TypeError`. -/
def bindRest : List (String × Option PyVal) → List (String × PyVal) →
    Except PyExc (List (String × PyVal))
  | [], _ => .ok []
  | (n, d) :: ps, kwargs =>
    match lookupAssoc kwargs n, d with
    | some v, _ => (bindRest ps kwargs).map (fun r => (n, v) :: r)
    | none, some dv => (bindRest ps kwargs).map (fun r => (n, dv) :: r)
    | none, none => .error ⟨"TypeError", "missing a required argument: " ++ n⟩

/-- Python argument binding, as performed both by calling the function and
by `inspect.signature(f).bind(*args, **kwargs)` followed by
`apply_defaults()`:  positional arguments fill the leading parameters,
keyword arguments and defaults fill the rest; arity and keyword errors
raise `TypeError`. -/
def bindArgs (params : List (String × Option PyVal)) (args : List PyVal)
    (kwargs : List (String × PyVal)) : Except PyExc (List (String × PyVal)) :=
  match bindPositional params args with
  | none => .error ⟨"TypeError", "too many positional arguments"⟩
  | some (posBound, rest) =>
    if kwargs.any (fun kv => (posBound.map (fun p => p.1)).contains kv.1) then
      .error ⟨"TypeError", "multiple values for argument"⟩
    else if kwargs.any (fun kv => !(rest.map (fun p => p.1)).contains kv.1) then
      .error ⟨"TypeError", "got an unexpected keyword argument"⟩
    else
      (bindRest rest kwargs).map (fun r => posBound ++ r)

/-- Calling a Python function directly: bind the arguments (a binding
failure raises `TypeError`), then run the body on the bound arguments. -/
def callFunc (f : PyFunc) (args : List PyVal) (kwargs : List (String × PyVal)) :
    Except PyExc PyVal :=
  match bindArgs f.params args kwargs with
  | .error e => .error e
  | .ok bound => f.body bound

/-- The attribute-value truncation of decorators.py:
`attr_value[:250] + "..."` when longer than 250 characters. -/
def truncateAttr (s : String) : String :=
  if s.length > 250 then s.take 250 ++ "..." else s

/-- The span name chosen by the decorator:
`span_name or f"{f.__module__}.{f.__name__}"` (an empty override string is
falsy in Python and falls back to the default). -/
def spanNameOf (span_name : Option String) (f : PyFunc) : String :=
  match span_name with
  | some n => if n = "" then f.modName ++ "." ++ f.name else n
  | none => f.modName ++ "." ++ f.name

/-- The `for arg_name in capture_args` loop of the wrapper: for each
requested name present in the bound arguments, stringify the value
(which may itself raise) and emit a `function.<name>` attribute, truncated.
Returns the events emitted before any stringification failure, together
with that failure if one occurred. -/
def captureArgsEvents : List String → List (String × PyVal) →
    List SpanEvent × Option PyExc
  | [], _ => ([], none)
  | n :: ns, bound =>
    match lookupAssoc bound n with
    | none => captureArgsEvents ns bound
    | some v =>
      match pyStr v with
      | .error e => ([], some e)
      | .ok s =>
        let rest := captureArgsEvents ns bound
        (SpanEvent.setAttr ("function." ++ n) (truncateAttr s) :: rest.1, rest.2)

/-- The argument-capture phase of the wrapper (lines 45-58 of
decorators.py): skipped when `capture_args` is falsy; otherwise bind the
call's arguments with `sig.bind` / `apply_defaults` (a binding failure is
the phase's failure) and emit one attribute per captured argument. -/
def captureArgsPhase (capture_args : List String) (f : PyFunc)
    (args : List PyVal) (kwargs : List (String × PyVal)) :
    List SpanEvent × Option PyExc :=
  if capture_args = [] then ([], none)
  else
    match bindArgs f.params args kwargs with
    | .error e => ([], some e)
    | .ok bound => captureArgsEvents capture_args bound

/-- The body of the wrapper's `try:` block: capture arguments, invoke `f`
with the original arguments, then optionally capture the stringified
return value and set status OK.  Any raise inside the block (from the
capture phase, from `f`, or from stringifying the result) becomes the
block's exceptional outcome. -/
def tryBody (capture_args : List String) (capture_return : Bool) (f : PyFunc)
    (args : List PyVal) (kwargs : List (String × PyVal)) :
    List SpanEvent × Except PyExc PyVal :=
  let cap := captureArgsPhase capture_args f args kwargs
  match cap.2 with
  | some e => (cap.1, .error e)
  | none =>
    match callFunc f args kwargs with
    | .error e => (cap.1, .error e)
    | .ok result =>
      if capture_return then
        match pyStr result with
        | .error e => (cap.1, .error e)
        | .ok s =>
          (cap.1 ++ [.setAttr "function.return" (truncateAttr s), .setStatus .ok],
           .ok result)
      else (cap.1 ++ [.setStatus .ok], .ok result)

/-- The wrapper produced by `trace_function` when telemetry is enabled:
open a span, run the `try:` block inside it; on an exceptional outcome
record the exception, set status ERROR with `str(e)` and re-raise; the
`with` statement closes the span on every exit path. -/
def wrapperEnabled (span_name : Option String) (capture_args : List String)
    (capture_return : Bool) (f : PyFunc) (args : List PyVal)
    (kwargs : List (String × PyVal)) : Except PyExc PyVal × List SpanEvent :=
  let name := spanNameOf span_name f
  let tb := tryBody capture_args capture_return f args kwargs
  match tb.2 with
  | .ok v => (.ok v, .openSpan name :: tb.1 ++ [.closeSpan])
  | .error e =>
    (.error e,
     .openSpan name :: tb.1 ++ [.recordExc e, .setStatus (.error e.msg), .closeSpan])

/-- `trace_function` from decorators.py, applied to `f` and then called on
`(args, kwargs)`.  `enabled` is `TelemetryConfig.enabled`, read at
decoration time: when false the decorator returns `f` itself, so the call
is the direct call and no span events are emitted.  `capture_args = []`
models both `None` and an empty list (both falsy). -/
def trace_function (enabled : Bool) (span_name : Option String)
    (capture_args : List String) (capture_return : Bool) (f : PyFunc)
    (args : List PyVal) (kwargs : List (String × PyVal)) :
    Except PyExc PyVal × List SpanEvent :=
  if enabled then wrapperEnabled span_name capture_args capture_return f args kwargs
  else (callFunc f args kwargs, [])

/-- `trace_function_with_metrics` from decorators.py: delegates to
`trace_function` with `capture_return=False`. -/
def trace_function_with_metrics (enabled : Bool) (span_name : Option String)
    (capture_args : List String) (f : PyFunc) (args : List PyVal)
    (kwargs : List (String × PyVal)) : Except PyExc PyVal × List SpanEvent :=
  trace_function enabled span_name capture_args false f args kwargs

/-- Two consecutive invocations of the same wrapped function with the same
arguments: both outcomes, and the concatenation of the two event traces. -/
def trace_function_twice (enabled : Bool) (span_name : Option String)
    (capture_args : List String) (capture_return : Bool) (f : PyFunc)
    (args : List PyVal) (kwargs : List (String × PyVal)) :
    (Except PyExc PyVal × Except PyExc PyVal) × List SpanEvent :=
  let r1 := trace_function enabled span_name capture_args capture_return f args kwargs
  let r2 := trace_function enabled span_name capture_args capture_return f args kwargs
  ((r1.1, r2.1), r1.2 ++ r2.2)

/-- The example function of the spec's concrete scenario:
`f(a, b) = a + b` (integer addition; a non-integer operand raises
`TypeError` as in Python). -/
def addFunc : PyFunc where
  modName := "demo"
  name := "add"
  params := [("a", none), ("b", none)]
  body := fun bound =>
    match lookupAssoc bound "a", lookupAssoc bound "b" with
    | some (.int x), some (.int y) => .ok (.int (x + y))
    | _, _ => .error ⟨"TypeError", "unsupported operand type for +"⟩

/-- An identity function `echo(x) = x`, used to observe how a single
argument and the return value are captured. -/
def echoFunc : PyFunc where
  modName := "demo"
  name := "echo"
  params := [("x", none)]
  body := fun bound =>
    match lookupAssoc bound "x" with
    | some v => .ok v
    | none => .error ⟨"TypeError", "missing x"⟩

/-- A pure zero-argument function returning a value whose `__str__`
raises `RuntimeError("boom")`. -/
def constBadStrFunc : PyFunc where
  modName := "demo"
  name := "make_bad"
  params := []
  body := fun _ => .ok (.badStr "RuntimeError" "boom")

/-- A one-argument pure function that ignores its argument and returns 1;
used with a `badStr` argument to exhibit an instrumentation failure. -/
def constOneFunc : PyFunc where
  modName := "demo"
  name := "const_one"
  params := [("x", none)]
  body := fun _ => .ok (.int 1)

/-- A one-argument function that raises `ValueError("x")` on every call. -/
def raiseValueErrorFunc : PyFunc where
  modName := "demo"
  name := "always_raise"
  params := [("x", none)]
  body := fun _ => .error ⟨"ValueError", "x"⟩

/-- An async Python function: calling it binds the arguments and returns a
coroutine object without running the body; the body runs only when the
coroutine is awaited. -/
structure AsyncPyFunc where
  modName : String
  name : String
  params : List (String × Option PyVal)
  body : List (String × PyVal) → Except PyExc PyVal
  cid : Nat

/-- The synchronous view of an async function, which is all the
(synchronous) wrapper of decorators.py ever interacts with: calling it
yields the coroutine object, not the body's result. -/
def asyncAsPyFunc (g : AsyncPyFunc) : PyFunc where
  modName := g.modName
  name := g.name
  params := g.params
  body := fun _ => .ok (.coro g.cid)

/-- Awaiting the coroutine produced by calling `g` on bound arguments:
only now does the async body run to completion. -/
def awaitCoro (g : AsyncPyFunc) (bound : List (String × PyVal)) :
    Except PyExc PyVal :=
  g.body bound

/-- A concrete async function whose awaited result is 42. -/
def asyncWork : AsyncPyFunc where
  modName := "demo"
  name := "async_work"
  params := []
  body := fun _ => .ok (.int 42)
  cid := 0

/-
Model of src/telemetry/auto_instrumentation.py.  A module-level function
object records its `__name__`, its `__module__`, whether it carries the
`_otel_auto_instrumented` marker, and how many wrapper layers have been
put around it; the instrumentation state is the `_instrumented_modules`
set together with the importable modules. -/

structure PyFunction where
  fname : String
  definedIn : String
  otelMarked : Bool
  wrapDepth : Nat
deriving DecidableEq, Repr

structure PyModule where
  mname : String
  members : List PyFunction
deriving DecidableEq, Repr

structure InstrState where
  instrumented : List String
  modules : List PyModule
deriving DecidableEq, Repr

/-- The per-member logic of `_instrument_module`'s loop: skip private
names (unless requested), skip functions already carrying the
`_otel_auto_instrumented` marker, skip functions defined in another
module; otherwise wrap the function (one more wrapper layer, marker set).
Returns whether the member was instrumented, and the resulting member. -/
def instrumentMember (module_name : String) (include_private : Bool)
    (g : PyFunction) : Bool × PyFunction :=
  if !include_private && g.fname.startsWith "_" then (false, g)
  else if g.otelMarked then (false, g)
  else if g.definedIn != module_name then (false, g)
  else (true, { g with otelMarked := true, wrapDepth := g.wrapDepth + 1 })

/-- `_instrument_module` from auto_instrumentation.py: return 0 at once if
the module is already in `_instrumented_modules`; return 0 on import
failure (modelled as the module not being available); otherwise record the
module as instrumented, wrap every eligible function member, and return
the number of functions instrumented. -/
def instrument_module (module_name : String) (include_private : Bool)
    (s : InstrState) : Nat × InstrState :=
  if module_name ∈ s.instrumented then (0, s)
  else
    match s.modules.find? (fun m => m.mname == module_name) with
    | none => (0, s)
    | some m =>
      let outs := m.members.map (instrumentMember module_name include_private)
      (((outs.filter (fun r => r.1)).length),
       { instrumented := module_name :: s.instrumented,
         modules := s.modules.map (fun x =>
           if x.mname = module_name then { x with members := outs.map (fun r => r.2) }
           else x) })

/-- An arbitrary sequence of `_instrument_module` calls, threaded through
the state. -/
def runCalls (calls : List (String × Bool)) (s : InstrState) : InstrState :=
  calls.foldl (fun st c => (instrument_module c.1 c.2 st).2) s

/-- A function object is soundly wrapped when it has at most one wrapper
layer and, when unmarked, no layer at all. -/
def goodFunc (g : PyFunction) : Prop :=
  g.wrapDepth ≤ 1 ∧ (g.otelMarked = false → g.wrapDepth = 0)

/-- Every function member of every module is soundly wrapped. -/
def goodState (s : InstrState) : Prop :=
  ∀ m ∈ s.modules, ∀ g ∈ m.members, goodFunc g

instance : DecidablePred goodFunc := fun g => by
  unfold goodFunc; infer_instance

instance (s : InstrState) : Decidable (goodState s) := by
  unfold goodState; infer_instance

/-
Helper predicates and lemmas about event traces.
-/

def isAttrEvent : SpanEvent → Bool
  | .setAttr _ _ => true
  | _ => false

def isOpenEvent : SpanEvent → Bool
  | .openSpan _ => true
  | _ => false

def isCloseEvent : SpanEvent → Bool
  | .closeSpan => true
  | _ => false

/-- Number of span-open operations in a trace. -/
def countOpens (evs : List SpanEvent) : Nat := (evs.filter isOpenEvent).length

/-- Number of span-close operations in a trace. -/
def countCloses (evs : List SpanEvent) : Nat := (evs.filter isCloseEvent).length

/-- Whether `str` succeeds on the value bound to `n` (vacuously true when
`n` is not bound). -/
def strOkAt (bound : List (String × PyVal)) (n : String) : Bool :=
  match lookupAssoc bound n with
  | none => true
  | some v => match pyStr v with | .ok _ => true | .error _ => false

/-- Whether `str` succeeds on every captured bound value. -/
def strsOk (names : List String) (bound : List (String × PyVal)) : Bool :=
  names.all (strOkAt bound)

/-- The attribute event the wrapper emits for one requested argument name,
when the name is bound and its value stringifies. -/
def attrEventOf (bound : List (String × PyVal)) (n : String) : Option SpanEvent :=
  match lookupAssoc bound n with
  | none => none
  | some v =>
    match pyStr v with
    | .error _ => none
    | .ok s => some (.setAttr ("function." ++ n) (truncateAttr s))

theorem captureArgsEvents_attrs (names : List String) (bound : List (String × PyVal)) :
    ((captureArgsEvents names bound).1).all isAttrEvent = true := by
  induction names with
  | nil => rfl
  | cons n ns ih =>
    simp only [captureArgsEvents]
    cases hl : lookupAssoc bound n with
    | none => exact ih
    | some v =>
      cases hs : pyStr v with
      | error e => simp [hs]
      | ok s => simpa [hs, isAttrEvent] using ih

theorem captureArgsPhase_attrs (ca : List String) (f : PyFunc) (args : List PyVal)
    (kwargs : List (String × PyVal)) :
    ((captureArgsPhase ca f args kwargs).1).all isAttrEvent = true := by
  unfold captureArgsPhase
  by_cases h : ca = []
  · simp [h]
  · rw [if_neg h]
    cases hb : bindArgs f.params args kwargs with
    | error e => rfl
    | ok bound => exact captureArgsEvents_attrs ca bound

theorem captureArgsEvents_of_strsOk (names : List String) (bound : List (String × PyVal))
    (h : strsOk names bound = true) :
    captureArgsEvents names bound = (names.filterMap (attrEventOf bound), none) := by
  induction names with
  | nil => rfl
  | cons n ns ih =>
    rw [strsOk, List.all_cons, Bool.and_eq_true] at h
    obtain ⟨h1, h2⟩ := h
    have ih' := ih h2
    simp only [captureArgsEvents, List.filterMap_cons, attrEventOf]
    cases hl : lookupAssoc bound n with
    | none => exact ih'
    | some v =>
      cases hs : pyStr v with
      | error e => simp [strOkAt, hl, hs] at h1
      | ok s => simp [hs, ih']

theorem foldl_attrs_only (evs : List SpanEvent) :
    ∀ sp : Span, evs.all isAttrEvent = true →
    ((evs.foldl applyEvent sp).status = sp.status ∧
     (evs.foldl applyEvent sp).exceptions = sp.exceptions ∧
     (evs.foldl applyEvent sp).opens = sp.opens ∧
     (evs.foldl applyEvent sp).closes = sp.closes ∧
     (evs.foldl applyEvent sp).name = sp.name) := by
  induction evs with
  | nil => intro sp _; simp
  | cons e t ih =>
    intro sp h
    rw [List.all_cons, Bool.and_eq_true] at h
    cases e with
    | setAttr k v =>
      have := ih (applyEvent sp (.setAttr k v)) h.2
      simpa [applyEvent] using this
    | openSpan n => exact absurd h.1 (by simp [isAttrEvent])
    | recordExc e1 => exact absurd h.1 (by simp [isAttrEvent])
    | setStatus st => exact absurd h.1 (by simp [isAttrEvent])
    | closeSpan => exact absurd h.1 (by simp [isAttrEvent])

theorem filter_attrs_only (evs : List SpanEvent) (h : evs.all isAttrEvent = true) :
    evs.filter isOpenEvent = [] ∧ evs.filter isCloseEvent = [] := by
  induction evs with
  | nil => simp
  | cons e t ih =>
    rw [List.all_cons, Bool.and_eq_true] at h
    cases e with
    | setAttr k v => simpa [List.filter_cons, isOpenEvent, isCloseEvent] using ih h.2
    | openSpan n => exact absurd h.1 (by simp [isAttrEvent])
    | recordExc e1 => exact absurd h.1 (by simp [isAttrEvent])
    | setStatus st => exact absurd h.1 (by simp [isAttrEvent])
    | closeSpan => exact absurd h.1 (by simp [isAttrEvent])

theorem tryBody_filter (ca : List String) (cr : Bool) (f : PyFunc)
    (args : List PyVal) (kwargs : List (String × PyVal)) :
    (tryBody ca cr f args kwargs).1.filter isOpenEvent = [] ∧
    (tryBody ca cr f args kwargs).1.filter isCloseEvent = [] := by
  have hfil := filter_attrs_only _ (captureArgsPhase_attrs ca f args kwargs)
  unfold tryBody
  cases hc : (captureArgsPhase ca f args kwargs).2 with
  | some e => simpa [hc] using hfil
  | none =>
    cases hcall : callFunc f args kwargs with
    | error e => simpa [hc, hcall] using hfil
    | ok v =>
      cases cr with
      | false =>
        simp [hc, hcall, List.filter_append, hfil.1, hfil.2, isOpenEvent, isCloseEvent]
      | true =>
        cases hs : pyStr v with
        | error e => simpa [hc, hcall, hs] using hfil
        | ok s =>
          simp [hc, hcall, hs, List.filter_append, hfil.1, hfil.2, isOpenEvent,
            isCloseEvent]

/-- C4: when tracing is disabled (`TelemetryConfig.enabled` false at
decoration time) the decorator returns `f` itself, so the wrapped call on
every argument tuple is exactly the direct call — same return value, same
exception — no span events are emitted, and the absence of a backend
raises nothing. -/
theorem trace_function_disabled_identity (span_name : Option String)
    (capture_args : List String) (capture_return : Bool) (f : PyFunc)
    (args : List PyVal) (kwargs : List (String × PyVal)) :
    trace_function false span_name capture_args capture_return f args kwargs =
      (callFunc f args kwargs, []) := rfl

/-- C9: `trace_function_with_metrics(f, span_name=s, capture_args=c)` is
extensionally equal to
`trace_function(f, span_name=s, capture_args=c, capture_return=False)`:
same outcome and same span events on every argument tuple, whatever the
enabled flag. -/
theorem trace_function_with_metrics_equiv (enabled : Bool)
    (span_name : Option String) (capture_args : List String) (f : PyFunc)
    (args : List PyVal) (kwargs : List (String × PyVal)) :
    trace_function_with_metrics enabled span_name capture_args f args kwargs =
      trace_function enabled span_name capture_args false f args kwargs := rfl

/-- C1 (amended): for a pure `f` and an argument tuple on which `f` is
defined, the wrapped call returns exactly `f`'s value, provided the
instrumentation's own stringification steps succeed — the argument-capture
phase raises nothing and, when `capture_return` is set, `str` of the
result succeeds.  (Without that proviso the claim fails, see the
counterexample.) -/
theorem trace_function_pure_roundtrip (enabled : Bool) (span_name : Option String)
    (capture_args : List String) (capture_return : Bool) (f : PyFunc)
    (args : List PyVal) (kwargs : List (String × PyVal)) (v : PyVal)
    (hdef : callFunc f args kwargs = .ok v)
    (hcap : (captureArgsPhase capture_args f args kwargs).2 = none)
    (hret : capture_return = true → ∃ s, pyStr v = .ok s) :
    (trace_function enabled span_name capture_args capture_return f args kwargs).1 =
      .ok v := by
  cases enabled with
  | false => simp [trace_function, hdef]
  | true =>
    cases capture_return with
    | false => simp [trace_function, wrapperEnabled, tryBody, hcap, hdef]
    | true =>
      obtain ⟨s, hs⟩ := hret rfl
      simp [trace_function, wrapperEnabled, tryBody, hcap, hdef, hs]

/-- Witness for C1 at the spec's concrete scenario: the wrapped
`add(2, 3)` returns 5. -/
theorem trace_function_pure_roundtrip_witness :
    (trace_function true none ["a", "b"] true addFunc [.int 2, .int 3] []).1 =
      .ok (.int 5) :=
  trace_function_pure_roundtrip true none ["a", "b"] true addFunc
    [.int 2, .int 3] [] (.int 5) rfl rfl (fun _ => ⟨"5", rfl⟩)

/-- C1 counterexample: a pure function returning a value whose `__str__`
raises.  The direct call returns the value, but with
`capture_return=True` the wrapped call raises `RuntimeError("boom")`
instead — wrapping does change the observable return value, because the
`except` block catches the instrumentation's own stringification failure
and re-raises it. -/
theorem trace_function_pure_roundtrip_cex :
    callFunc constBadStrFunc [] [] = .ok (.badStr "RuntimeError" "boom") ∧
    (trace_function true none [] true constBadStrFunc [] []).1 =
      .error ⟨"RuntimeError", "boom"⟩ := ⟨rfl, rfl⟩

/-- C2 (amended): whenever `f` raises on the given arguments and the
argument-capture phase itself raises nothing (for instance `capture_args`
is empty, or every captured value stringifies), the wrapped call raises an
exception of exactly the same type and message, and the emitted span has
recorded that exception, carries status ERROR with the exception's
message, and is closed.  (Without the capture proviso the claim fails,
see the counterexample.) -/
theorem trace_function_raises_same_exception (span_name : Option String)
    (capture_args : List String) (capture_return : Bool) (f : PyFunc)
    (args : List PyVal) (kwargs : List (String × PyVal)) (e : PyExc)
    (hraise : callFunc f args kwargs = .error e)
    (hcap : (captureArgsPhase capture_args f args kwargs).2 = none) :
    (trace_function true span_name capture_args capture_return f args kwargs).1 =
      .error e ∧
    (runEvents
      (trace_function true span_name capture_args capture_return f args kwargs).2).status =
      .error e.msg ∧
    (runEvents
      (trace_function true span_name capture_args capture_return f args kwargs).2).exceptions =
      [e] ∧
    (runEvents
      (trace_function true span_name capture_args capture_return f args kwargs).2).closes =
      1 := by
  have htr : trace_function true span_name capture_args capture_return f args kwargs =
      (.error e,
       .openSpan (spanNameOf span_name f) ::
         (captureArgsPhase capture_args f args kwargs).1 ++
         [.recordExc e, .setStatus (.error e.msg), .closeSpan]) := by
    simp [trace_function, wrapperEnabled, tryBody, hcap, hraise]
  rw [htr]
  obtain ⟨h1, h2, h3, h4, h5⟩ :=
    foldl_attrs_only (captureArgsPhase capture_args f args kwargs).1
      (applyEvent Span.init (.openSpan (spanNameOf span_name f)))
      (captureArgsPhase_attrs capture_args f args kwargs)
  simp only [applyEvent, Span.init] at h1 h2 h3 h4 h5
  refine ⟨rfl, ?_, ?_, ?_⟩ <;>
    simp [runEvents, List.foldl_cons, List.foldl_append, applyEvent, h1, h2, h3, h4,
      Span.init]

/-- Witness for C2 at the spec's concrete scenario shape: a function that
raises `ValueError("x")`; the wrapped call raises `ValueError` with
message `x` and the span ends in status ERROR `"x"` with the exception
recorded and the span closed. -/
theorem trace_function_raises_same_exception_witness :
    (trace_function true none [] false raiseValueErrorFunc [.int 7] []).1 =
      .error ⟨"ValueError", "x"⟩ ∧
    (runEvents (trace_function true none [] false raiseValueErrorFunc [.int 7] []).2).status =
      .error "x" ∧
    (runEvents (trace_function true none [] false raiseValueErrorFunc [.int 7] []).2).exceptions =
      [⟨"ValueError", "x"⟩] ∧
    (runEvents (trace_function true none [] false raiseValueErrorFunc [.int 7] []).2).closes =
      1 :=
  trace_function_raises_same_exception none [] false raiseValueErrorFunc [.int 7] []
    ⟨"ValueError", "x"⟩ rfl rfl

/-- C2 counterexample: `always_raise(x)` raises `ValueError("x")` for
every argument, but calling the wrapped function on an argument whose
`__str__` raises `RuntimeError("boom")` with `capture_args=["x"]` raises
`RuntimeError("boom")` instead — the wrapper replaced the wrapped
function's exception with the instrumentation's own. -/
theorem trace_function_raises_same_exception_cex :
    callFunc raiseValueErrorFunc [.badStr "RuntimeError" "boom"] [] =
      .error ⟨"ValueError", "x"⟩ ∧
    (trace_function true none ["x"] false raiseValueErrorFunc
      [.badStr "RuntimeError" "boom"] []).1 = .error ⟨"RuntimeError", "boom"⟩ :=
  ⟨rfl, rfl⟩

/-- C3 (code bug): instrumentation failures are NOT recovered inside the
wrapper.  `const_one` is pure and returns 1 on this argument, but with
`capture_args=["x"]` and an argument whose `__str__` raises
`RuntimeError("boom")`, the stringification failure is caught by the same
`except` block as wrapped-function errors and re-raised: the wrapped call
raises `RuntimeError("boom")` to the caller and `f` never runs, contrary
to the spec's requirement that such failures be recovered locally. -/
theorem trace_function_instrumentation_error_surfaces :
    callFunc constOneFunc [.badStr "RuntimeError" "boom"] [] = .ok (.int 1) ∧
    (trace_function true none ["x"] false constOneFunc
      [.badStr "RuntimeError" "boom"] []).1 = .error ⟨"RuntimeError", "boom"⟩ :=
  ⟨rfl, rfl⟩

/-- C6: a captured value (argument or return) whose string form is longer
than 250 characters is recorded as its first 250 characters followed by
`"..."`; a string form of length at most 250 is recorded unchanged.
Stated on the wrapped identity function with a string argument of
arbitrary content, captured both as argument and as return value. -/
theorem trace_function_truncation (s : String) :
    (runEvents (trace_function true none ["x"] true echoFunc [.str s] []).2).attrs =
      [("function.x", if s.length > 250 then s.take 250 ++ "..." else s),
       ("function.return", if s.length > 250 then s.take 250 ++ "..." else s)] := rfl

/-- C5: with non-empty `capture_args`, the wrapper binds the actual
arguments to `f`'s declared parameter names with declared defaults
applied, and for each requested name present in the bound set emits a
`function.<name>` attribute equal to the (truncated) stringified bound
value, in request order; with `capture_return` set it then emits
`function.return` equal to the (truncated) stringified result and sets
status OK, returning `f`'s value unchanged.  The hypotheses state the
claim's presuppositions: binding succeeds, the captured values and the
result stringify, and the call returns. -/
theorem trace_function_capture_semantics (span_name : Option String)
    (capture_args : List String) (f : PyFunc) (args : List PyVal)
    (kwargs : List (String × PyVal)) (bound : List (String × PyVal))
    (v : PyVal) (rs : String)
    (hne : capture_args ≠ [])
    (hbind : bindArgs f.params args kwargs = .ok bound)
    (hstrs : strsOk capture_args bound = true)
    (hcall : callFunc f args kwargs = .ok v)
    (hret : pyStr v = .ok rs) :
    trace_function true span_name capture_args true f args kwargs =
      (.ok v,
       .openSpan (spanNameOf span_name f) ::
         capture_args.filterMap (attrEventOf bound) ++
         [.setAttr "function.return" (truncateAttr rs), .setStatus .ok,
          .closeSpan]) := by
  have hphase : captureArgsPhase capture_args f args kwargs =
      (capture_args.filterMap (attrEventOf bound), none) := by
    unfold captureArgsPhase
    rw [if_neg hne, hbind]
    exact captureArgsEvents_of_strsOk capture_args bound hstrs
  simp [trace_function, wrapperEnabled, tryBody, hphase, hcall, hret]

/-- Witness for C5, the spec's concrete scenario: `f(a, b) = a + b` with
`capture_args=["a","b"]` and `capture_return=True`; the wrapped call on
`(2, 3)` returns 5 and the span carries `function.a="2"`,
`function.b="3"`, `function.return="5"` and status OK. -/
theorem trace_function_capture_semantics_witness :
    trace_function true none ["a", "b"] true addFunc [.int 2, .int 3] [] =
      (.ok (.int 5),
       [.openSpan "demo.add", .setAttr "function.a" "2", .setAttr "function.b" "3",
        .setAttr "function.return" "5", .setStatus .ok, .closeSpan]) := by
  have h := trace_function_capture_semantics none ["a", "b"] addFunc
    [.int 2, .int 3] [] [("a", .int 2), ("b", .int 3)] (.int 5) "5"
    (by simp) rfl rfl rfl rfl
  exact h.trans rfl

/-- C7: every invocation of the wrapped function with tracing enabled
emits a trace that opens exactly one span and closes it exactly once, the
open first and the close last — on every exit path, since the statement
holds for all `f`, arguments and configuration; and two invocations with
identical arguments are two independent evaluations, each emitting its own
span (two opens, two closes) and each returning the wrapped function's
own outcome — nothing is cached or memoized. -/
theorem trace_function_span_discipline (span_name : Option String)
    (capture_args : List String) (capture_return : Bool) (f : PyFunc)
    (args : List PyVal) (kwargs : List (String × PyVal)) :
    countOpens (trace_function true span_name capture_args capture_return f args kwargs).2 = 1 ∧
    countCloses (trace_function true span_name capture_args capture_return f args kwargs).2 = 1 ∧
    (trace_function true span_name capture_args capture_return f args kwargs).2.head? =
      some (.openSpan (spanNameOf span_name f)) ∧
    (trace_function true span_name capture_args capture_return f args kwargs).2.getLast? =
      some .closeSpan ∧
    trace_function_twice true span_name capture_args capture_return f args kwargs =
      (((trace_function true span_name capture_args capture_return f args kwargs).1,
        (trace_function true span_name capture_args capture_return f args kwargs).1),
       (trace_function true span_name capture_args capture_return f args kwargs).2 ++
         (trace_function true span_name capture_args capture_return f args kwargs).2) ∧
    countOpens
      ((trace_function true span_name capture_args capture_return f args kwargs).2 ++
        (trace_function true span_name capture_args capture_return f args kwargs).2) = 2 ∧
    countCloses
      ((trace_function true span_name capture_args capture_return f args kwargs).2 ++
        (trace_function true span_name capture_args capture_return f args kwargs).2) = 2 := by
  have htb := tryBody_filter capture_args capture_return f args kwargs
  have hmain :
      countOpens (trace_function true span_name capture_args capture_return f args kwargs).2 = 1 ∧
      countCloses (trace_function true span_name capture_args capture_return f args kwargs).2 = 1 ∧
      (trace_function true span_name capture_args capture_return f args kwargs).2.head? =
        some (.openSpan (spanNameOf span_name f)) ∧
      (trace_function true span_name capture_args capture_return f args kwargs).2.getLast? =
        some .closeSpan := by
    cases houtcome : (tryBody capture_args capture_return f args kwargs).2 with
    | ok v =>
      have hev : (trace_function true span_name capture_args capture_return f args kwargs).2 =
          .openSpan (spanNameOf span_name f) ::
            (tryBody capture_args capture_return f args kwargs).1 ++ [.closeSpan] := by
        simp [trace_function, wrapperEnabled, houtcome]
      rw [hev]
      refine ⟨?_, ?_, rfl, ?_⟩
      · simp [countOpens, List.filter_append, List.filter_cons, htb.1, isOpenEvent]
      · simp [countCloses, List.filter_append, List.filter_cons, htb.2, isCloseEvent]
      · rw [List.getLast?_append_cons]
        rfl
    | error e =>
      have hev : (trace_function true span_name capture_args capture_return f args kwargs).2 =
          .openSpan (spanNameOf span_name f) ::
            (tryBody capture_args capture_return f args kwargs).1 ++
            [.recordExc e, .setStatus (.error e.msg), .closeSpan] := by
        simp [trace_function, wrapperEnabled, houtcome]
      rw [hev]
      refine ⟨?_, ?_, rfl, ?_⟩
      · simp [countOpens, List.filter_append, List.filter_cons, htb.1, isOpenEvent]
      · simp [countCloses, List.filter_append, List.filter_cons, htb.2, isCloseEvent]
      · rw [List.getLast?_append_cons]
        rfl
  refine ⟨hmain.1, hmain.2.1, hmain.2.2.1, hmain.2.2.2, rfl, ?_, ?_⟩
  · have h1 := hmain.1
    simp only [countOpens, List.filter_append, List.length_append] at h1 ⊢
    omega
  · have h1 := hmain.2.1
    simp only [countCloses, List.filter_append, List.length_append] at h1 ⊢
    omega

/-- C8 (amended): the wrapper of decorators.py is synchronous.  Applied to
an async function it does not block — the wrapped call immediately returns
the coroutine object produced by the call's synchronous initiation, with
the async body still unexecuted — but the span it opens is set to OK and
closed during that same synchronous call, i.e. at initiation, not at the
asynchronous completion of the wrapped operation. -/
theorem trace_function_async_initiation (g : AsyncPyFunc)
    (span_name : Option String) (args : List PyVal)
    (kwargs : List (String × PyVal)) (bound : List (String × PyVal))
    (hbind : bindArgs g.params args kwargs = .ok bound) :
    trace_function true span_name [] false (asyncAsPyFunc g) args kwargs =
      (.ok (.coro g.cid),
       [.openSpan (spanNameOf span_name (asyncAsPyFunc g)), .setStatus .ok,
        .closeSpan]) ∧
    awaitCoro g bound = g.body bound := by
  refine ⟨?_, rfl⟩
  simp [trace_function, wrapperEnabled, tryBody, captureArgsPhase, callFunc,
    asyncAsPyFunc, hbind]

/-- Witness for C8's amended statement at the concrete async function
`async_work` (awaited result 42): the wrapped synchronous call returns the
coroutine object and its span is already closed. -/
theorem trace_function_async_initiation_witness :
    trace_function true none [] false (asyncAsPyFunc asyncWork) [] [] =
      (.ok (.coro 0),
       [.openSpan "demo.async_work", .setStatus .ok, .closeSpan]) ∧
    awaitCoro asyncWork [] = .ok (.int 42) := by
  have h := trace_function_async_initiation asyncWork none [] [] [] rfl
  exact ⟨h.1.trans rfl, rfl⟩

/-- C8 counterexample: the claim says the span stays open until the
wrapped operation's full asynchronous completion.  For the async function
`async_work`, the entire event trace of the wrapped call — including the
span close — is produced by the synchronous call alone: the call returns
the un-awaited coroutine object (not the completed result 42) while the
trace already contains exactly one close.  The span therefore covers only
the synchronous initiation. -/
theorem trace_function_async_cex :
    (trace_function true none [] false (asyncAsPyFunc asyncWork) [] []).1 =
      .ok (.coro 0) ∧
    countCloses (trace_function true none [] false (asyncAsPyFunc asyncWork) [] []).2 = 1 ∧
    awaitCoro asyncWork [] = .ok (.int 42) := ⟨rfl, rfl, rfl⟩

/-
Lemmas for the auto-instrumentation model.
-/

theorem instrumentMember_good (mn : String) (inc : Bool) (g : PyFunction)
    (h : goodFunc g) : goodFunc (instrumentMember mn inc g).2 := by
  unfold instrumentMember
  by_cases hp : (!inc && g.fname.startsWith "_") = true
  · simpa [hp] using h
  · by_cases hm : g.otelMarked = true
    · simpa [hp, hm] using h
    · have h0 : g.wrapDepth = 0 := h.2 (by simpa using hm)
      by_cases hd : (g.definedIn != mn) = true
      · simpa [hp, hm, hd] using h
      · simp [hp, hm, hd, goodFunc, h0]


theorem instrument_module_already (mn : String) (inc : Bool) (s : InstrState)
    (h : mn ∈ s.instrumented) : instrument_module mn inc s = (0, s) := by
  unfold instrument_module
  rw [if_pos h]

theorem instrument_module_import_failed (mn : String) (inc : Bool) (s : InstrState)
    (hc : mn ∉ s.instrumented)
    (hf : s.modules.find? (fun m => m.mname == mn) = none) :
    instrument_module mn inc s = (0, s) := by
  unfold instrument_module
  rw [if_neg hc, hf]

theorem instrument_module_found (mn : String) (inc : Bool) (s : InstrState)
    (m : PyModule) (hc : mn ∉ s.instrumented)
    (hf : s.modules.find? (fun x => x.mname == mn) = some m) :
    instrument_module mn inc s =
      ((((m.members.map (instrumentMember mn inc)).filter (fun r => r.1)).length),
       { instrumented := mn :: s.instrumented,
         modules := s.modules.map (fun x =>
           if x.mname = mn then
             { x with members := (m.members.map (instrumentMember mn inc)).map (fun r => r.2) }
           else x) }) := by
  unfold instrument_module
  rw [if_neg hc, hf]

theorem instrument_module_good (mn : String) (inc : Bool) (s : InstrState)
    (h : goodState s) : goodState (instrument_module mn inc s).2 := by
  by_cases hc : mn ∈ s.instrumented
  · rw [instrument_module_already mn inc s hc]
    exact h
  · cases hf : s.modules.find? (fun x => x.mname == mn) with
    | none =>
      rw [instrument_module_import_failed mn inc s hc hf]
      exact h
    | some m =>
      rw [instrument_module_found mn inc s m hc hf]
      intro m' hm' g hg
      obtain ⟨x, hx, hx'⟩ := List.mem_map.mp hm'
      by_cases hxe : x.mname = mn
      · rw [if_pos hxe] at hx'
        subst hx'
        have hg' : g ∈ (m.members.map (instrumentMember mn inc)).map (fun r => r.2) := hg
        obtain ⟨r, hr, hr'⟩ := List.mem_map.mp hg'
        obtain ⟨g0, hg0, hg0'⟩ := List.mem_map.mp hr
        subst hr'
        subst hg0'
        exact instrumentMember_good mn inc g0
          (h m (List.mem_of_find?_eq_some hf) g0 hg0)
      · rw [if_neg hxe] at hx'
        subst hx'
        exact h x hx g hg

/-- C10: instrumenting modules is idempotent and never double-wraps.
(1) `_instrument_module` on a module name already recorded in
`_instrumented_modules` instruments nothing and returns 0, leaving the
state unchanged; (2) hence an immediate second call on any module name
returns 0 and changes nothing; (3) a function already carrying the
`_otel_auto_instrumented` marker is never wrapped again; (4) consequently,
under any sequence of `_instrument_module` calls starting from a state
with no spurious wrapper layers, every function keeps at most one wrapper
layer — no function is ever double-wrapped. -/
theorem instrument_module_idempotent :
    (∀ (s : InstrState) (mn : String) (inc : Bool),
       mn ∈ s.instrumented → instrument_module mn inc s = (0, s)) ∧
    (∀ (s : InstrState) (mn : String) (inc : Bool),
       instrument_module mn inc (instrument_module mn inc s).2 =
         (0, (instrument_module mn inc s).2)) ∧
    (∀ (mn : String) (inc : Bool) (g : PyFunction),
       g.otelMarked = true → instrumentMember mn inc g = (false, g)) ∧
    (∀ (calls : List (String × Bool)) (s : InstrState),
       goodState s → goodState (runCalls calls s)) := by
  refine ⟨fun s mn inc h => instrument_module_already mn inc s h, ?_, ?_, ?_⟩
  · intro s mn inc
    by_cases hc : mn ∈ s.instrumented
    · rw [instrument_module_already mn inc s hc]
      exact instrument_module_already mn inc s hc
    · cases hf : s.modules.find? (fun x => x.mname == mn) with
      | none =>
        rw [instrument_module_import_failed mn inc s hc hf]
        exact instrument_module_import_failed mn inc s hc hf
      | some m =>
        rw [instrument_module_found mn inc s m hc hf]
        exact instrument_module_already mn inc _ (List.mem_cons_self mn _)
  · intro mn inc g h
    by_cases hp : (!inc && g.fname.startsWith "_") = true <;>
      simp [instrumentMember, hp, h]
  · intro calls
    induction calls with
    | nil => intro s h; exact h
    | cons c cs ih =>
      intro s h
      exact ih ((instrument_module c.1 c.2 s).2) (instrument_module_good c.1 c.2 s h)

/-- Witness for C10 at concrete inputs: a state that already records
module `m` is left unchanged with count 0; a marked function is not
re-wrapped; and after instrumenting a fresh one-function module twice,
every function still has at most one wrapper layer. -/
theorem instrument_module_idempotent_witness :
    instrument_module "m" false ⟨["m"], []⟩ = (0, ⟨["m"], []⟩) ∧
    instrumentMember "m" false ⟨"f", "m", true, 1⟩ = (false, ⟨"f", "m", true, 1⟩) ∧
    goodState (runCalls [("m", false), ("m", false)]
      ⟨[], [⟨"m", [⟨"f", "m", false, 0⟩]⟩]⟩) :=
  ⟨instrument_module_idempotent.1 ⟨["m"], []⟩ "m" false (by decide),
   instrument_module_idempotent.2.2.1 "m" false ⟨"f", "m", true, 1⟩ (by decide),
   instrument_module_idempotent.2.2.2 [("m", false), ("m", false)]
     ⟨[], [⟨"m", [⟨"f", "m", false, 0⟩]⟩]⟩ (by decide)⟩
